import Mathlib

/-!
# Jobs Central API: request handlers of `routes/api/job_offers.js` and `routes/api/users.js`

A shallow embedding of the Express handlers.  A handler is a function from the
request (caller identity resolved by the `checkAuth` guard, path parameter,
parsed body), the collection it works on and the outcome of the external
steps it awaits (store writes, bcrypt, jwt) to the response it sends, the
collection afterwards and the store calls it issued.

Reads (`findById`, `findOne`) are functions of the collection.  Writes
(`save`, `update`, `remove`) and the bcrypt / jwt steps can fail; whether they
do is a parameter of the handler, and the handler's `.catch` branch is taken
when they do.
-/

namespace JobsCentral

/-! ## Values -/

/-- JavaScript values that reach the handlers through a parsed request body
or a stored document: an absent property, `null`, booleans, numbers, strings
and arrays of strings (the `tags` of an offer). -/
inductive JVal where
  | undefined
  | null
  | bool (b : Bool)
  | num (n : Int)
  | str (s : String)
  | strs (l : List String)
  deriving DecidableEq, Repr

/-- JavaScript `ToBoolean`: what `!x` negates. -/
def JVal.truthy : JVal → Bool
  | .undefined => false
  | .null => false
  | .bool b => b
  | .num n => decide (n ≠ 0)
  | .str s => decide (s ≠ "")
  | .strs _ => true

/-- An object with string keys, as a property table.  The first entry for a
key is the property's current value. -/
abbrev Doc := List (String × JVal)

/-- Property read `d[f]`; an absent property reads `undefined`. -/
def field (d : Doc) (f : String) : JVal :=
  match d.lookup f with
  | some v => v
  | none => JVal.undefined

/-- The names of the properties of an object. -/
def fieldNames (d : Doc) : List String := d.map Prod.fst

/-! ## Responses -/

/-- The JSON bodies the handlers send. -/
inductive Body where
  /-- The body `{ msg: s }`. -/
  | msg (s : String)
  /-- The body `{ error: err }` of a 500 answer. -/
  | error
  /-- The body `{ success: b }`. -/
  | success (b : Bool)
  /-- A document or object literal sent as it is. -/
  | doc (d : Doc)
  /-- The body `{ jobOffer }`. -/
  | jobOffer (d : Doc)
  /-- The body `{ token, user }`. -/
  | login (token : String) (user : Doc)
  deriving DecidableEq, Repr

/-- What `res.status(n).json(body)` sends. -/
structure Response where
  status : Nat
  body : Body
  deriving DecidableEq, Repr

/-- Store methods a handler calls. -/
inductive Call where
  | findOne
  | findById
  | save
  | update
  | remove
  deriving DecidableEq, Repr

/-- The result of running a handler: the response, the collection afterwards
and the store calls issued, in order. -/
structure Outcome where
  resp : Response
  store : List Doc
  calls : List Call
  deriving DecidableEq, Repr

/-! ## The document store -/

/-- Modelled from the spec: `Model.findById` of models/JobOffer.js and
models/User.js (not in the sources): the stored document whose `_id` is the
given id, when there is one. -/
def findById (store : List Doc) (id : String) : Option Doc :=
  store.find? (fun d => decide (field d "_id" = JVal.str id))

/-- Modelled from the spec: `User.findOne({ email })` of models/User.js (not
in the sources): the first stored user whose `email` is exactly the given
value. -/
def findOne (store : List Doc) (email : JVal) : Option Doc :=
  store.find? (fun d => decide (field d "email" = email))

/-- Modelled from the spec: `document.save()` of a new document: the store
assigns the id (and, for an offer, the creation date, passed in `assigned`);
`newId = none` stands for a rejected save, and an id already in use is
rejected as well.  The result is the saved document and the collection with
it added. -/
def saveDoc (newId : Option String) (assigned : Doc) (store : List Doc) (doc : Doc) :
    Option (Doc × List Doc) :=
  match newId with
  | none => none
  | some id =>
    if (findById store id).isSome then none
    else
      let saved : Doc := ("_id", JVal.str id) :: (assigned ++ doc)
      some (saved, store ++ [saved])

/-- Modelled from the spec: `JobOffer.update({ _id: id }, { $set: ops })`: the
first document with that id has every property of `ops` overwritten; no
other document changes. -/
def updateOne (store : List Doc) (id : String) (ops : Doc) : List Doc :=
  match store with
  | [] => []
  | d :: rest =>
    if field d "_id" = JVal.str id then (ops ++ d) :: rest
    else d :: updateOne rest id ops

/-- Modelled from the spec: `document.remove()`: the first document with that
id leaves the collection. -/
def removeOne (store : List Doc) (id : String) : List Doc :=
  match store with
  | [] => []
  | d :: rest =>
    if field d "_id" = JVal.str id then rest
    else d :: removeOne rest id

/-! ## JavaScript pieces the handlers rely on -/

/-- The object `updateOps`, built from the literal `{}`: its own properties
(latest assignment first) and whether its prototype chain still reaches
`Object.prototype`, where the `__proto__` accessor lives. -/
structure JsObject where
  own : Doc
  inheritsObjectPrototype : Bool
  deriving DecidableEq, Repr

/-- The object literal `{}`. -/
def JsObject.empty : JsObject := ⟨[], true⟩

/-- The assignment `o[k] = v`.  For every key but `__proto__` it defines the
own property `k`.  For `__proto__` on an object that inherits from
`Object.prototype` the accessor runs instead: it replaces the prototype when
`v` is an object or `null` and does nothing otherwise, and no own property is
defined.  After the prototype became `null` the key is an ordinary one. -/
def JsObject.assign (o : JsObject) (k : String) (v : JVal) : JsObject :=
  if k = "__proto__" ∧ o.inheritsObjectPrototype = true then
    match v with
    | JVal.null => ⟨o.own, false⟩
    | _ => o
  else ⟨(k, v) :: o.own, o.inheritsObjectPrototype⟩

/-- One element `{ propName, value }` of a patch body. -/
structure Edit where
  propName : String
  value : JVal
  deriving DecidableEq, Repr

/-- The loop `for (const ops of req.body) updateOps[ops.propName] = ops.value`
starting from `const updateOps = {}`. -/
def updateOps (body : List Edit) : JsObject :=
  body.foldl (fun o ops => o.assign ops.propName ops.value) JsObject.empty

/-- The characters `StringToNumber` strips from both ends of a string
(ECMAScript `StrWhiteSpaceChar`: white space and line terminators). -/
def isStrWhiteSpace (c : Char) : Bool :=
  let n := c.toNat
  n = 0x09 || n = 0x0A || n = 0x0B || n = 0x0C || n = 0x0D || n = 0x20 || n = 0xA0 ||
  n = 0x1680 || (0x2000 ≤ n && n ≤ 0x200A) || n = 0x2028 || n = 0x2029 || n = 0x202F ||
  n = 0x205F || n = 0x3000 || n = 0xFEFF

/-- The number written by a list of decimal digits. -/
def digitsValue (ds : List Char) : Nat :=
  ds.foldl (fun acc c => 10 * acc + (c.toNat - 48)) 0

/-- Whether an exponent part (what follows the mantissa) is well formed, and
the exponent it denotes: nothing, or `e` / `E`, an optional sign and at least
one digit. -/
def exponentPart (cs : List Char) : Option Int :=
  match cs with
  | [] => some 0
  | c :: rest =>
    if c = 'e' ∨ c = 'E' then
      match rest with
      | '-' :: ds =>
        if ds ≠ [] ∧ ds.all Char.isDigit = true then some (-(digitsValue ds : Int)) else none
      | '+' :: ds =>
        if ds ≠ [] ∧ ds.all Char.isDigit = true then some (digitsValue ds : Int) else none
      | ds =>
        if ds ≠ [] ∧ ds.all Char.isDigit = true then some (digitsValue ds : Int) else none
    else none

/-- Whether an unsigned decimal literal (`StrUnsignedDecimalLiteral`) denotes a
number that converts to zero: the mantissa is zero, or the value is at most
half the least positive double, `2 ^ (-1075)`, and rounds to zero. -/
def unsignedDecimalIsZero (cs : List Char) : Bool :=
  if cs = "Infinity".toList then false
  else
    let ip := cs.takeWhile Char.isDigit
    let r1 := cs.dropWhile Char.isDigit
    let hasDot := decide (r1.head? = some '.')
    let fp := if hasDot then (r1.drop 1).takeWhile Char.isDigit else []
    let r2 := if hasDot then (r1.drop 1).dropWhile Char.isDigit else r1
    if ip = [] ∧ fp = [] then false
    else
      match exponentPart r2 with
      | none => false
      | some e =>
        let m := digitsValue (ip ++ fp)
        let scale : Int := e - (fp.length : Int)
        decide (m = 0) || (decide (scale < 0) && decide (m * 2 ^ 1075 ≤ 10 ^ (-scale).toNat))

/-- Whether every character is a digit below the radix and there is at least
one (the digits of `0x…`, `0o…`, `0b…`), and all of them are `0`. -/
def radixDigitsAreZero (isDig : Char → Bool) (ds : List Char) : Bool :=
  decide (ds ≠ []) && ds.all isDig && ds.all (fun c => decide (c = '0'))

/-- Hexadecimal digits. -/
def isHexDigit (c : Char) : Bool :=
  c.isDigit || ('a' ≤ c && c ≤ 'f') || ('A' ≤ c && c ≤ 'F')

/-- Whether `StringToNumber` of the trimmed text is `+0` or `-0`. -/
def literalIsZero (cs : List Char) : Bool :=
  match cs with
  | [] => true
  | '0' :: 'x' :: ds => radixDigitsAreZero isHexDigit ds
  | '0' :: 'X' :: ds => radixDigitsAreZero isHexDigit ds
  | '0' :: 'o' :: ds => radixDigitsAreZero (fun c => '0' ≤ c && c ≤ '7') ds
  | '0' :: 'O' :: ds => radixDigitsAreZero (fun c => '0' ≤ c && c ≤ '7') ds
  | '0' :: 'b' :: ds => radixDigitsAreZero (fun c => '0' ≤ c && c ≤ '1') ds
  | '0' :: 'B' :: ds => radixDigitsAreZero (fun c => '0' ≤ c && c ≤ '1') ds
  | '+' :: ds => unsignedDecimalIsZero ds
  | '-' :: ds => unsignedDecimalIsZero ds
  | ds => unsignedDecimalIsZero ds

/-- The comparison `s == 0` for a string `s`: `s` is converted with
`StringToNumber` and the numbers are compared, so it holds exactly when the
trimmed text is empty or is a numeric literal whose value is zero. -/
def looseEqZero (s : String) : Bool :=
  literalIsZero ((s.toList.dropWhile isStrWhiteSpace).reverse.dropWhile isStrWhiteSpace).reverse

/-! ## Handlers of `routes/api/job_offers.js` -/

namespace JobOffers

/-- Handler of `GET /job_offers/:id`. -/
def getById (store : List Doc) (id : String) : Response :=
  match findById store id with
  | some jobOffer => ⟨200, Body.doc jobOffer⟩
  | none => ⟨404, Body.msg "No valid entry found for provided ID"⟩

/-- The document `new JobOffer({ ... })` of `POST /job_offers`: `authorId` is
the caller's identity, the other nine properties are read from the body. -/
def newJobOffer (caller : String) (body : Doc) : Doc :=
  [("authorId", JVal.str caller),
   ("title", field body "title"),
   ("position", field body "position"),
   ("firm", field body "firm"),
   ("city", field body "city"),
   ("street", field body "street"),
   ("number", field body "number"),
   ("dimensions", field body "dimensions"),
   ("description", field body "description"),
   ("tags", field body "tags")]

/-- Handler of `POST /job_offers`, after `checkAuth` resolved the caller and the upload
middleware let the request through.  `newId` and `now` are the id and the
creation date the store assigns on save. -/
def post (newId : Option String) (now : JVal) (store : List Doc) (caller : String)
    (body : Doc) : Outcome :=
  match saveDoc newId [("date", now)] store (newJobOffer caller body) with
  | some (jobOffer, store') => ⟨⟨200, Body.jobOffer jobOffer⟩, store', [Call.save]⟩
  | none => ⟨⟨500, Body.error⟩, store, [Call.save]⟩

/-- Handler of `PATCH /job_offers/:id`, after `checkAuth` resolved the caller.
`updateOk` tells whether the store's update resolves. -/
def patch (updateOk : Bool) (store : List Doc) (caller : String) (id : String)
    (body : List Edit) : Outcome :=
  match findById store id with
  | some jobOffer =>
    if JVal.str caller ≠ field jobOffer "authorId" then
      ⟨⟨401, Body.msg "No permission!"⟩, store, [Call.findById]⟩
    else if updateOk then
      ⟨⟨200, Body.msg "Updated successfully"⟩, updateOne store id (updateOps body).own,
        [Call.findById, Call.update]⟩
    else ⟨⟨500, Body.error⟩, store, [Call.findById, Call.update]⟩
  | none => ⟨⟨404, Body.msg "No valid entry found for provided ID"⟩, store, [Call.findById]⟩

/-- Handler of `DELETE /job_offers/:id`, after `checkAuth` resolved the caller.
The test `req.user.id != 0` comes first, before the looked-up offer is
touched.  Past it, with a `null` offer the call `jobOffer.remove()` throws and
the outer `.catch` answers 404.  With a stored offer `jobOffer.remove()`
issues the remove and returns a promise (the sibling handler in users.js
calls `.then` on it directly); a promise has no `exec`, so `.exec()` throws
inside the `.then` callback and the outer `.catch` answers 404 as well: the
204 and 500 answers of the inner chain are never sent.  `removeOk` tells
whether the remove that was issued takes effect. -/
def delete (removeOk : Bool) (store : List Doc) (caller : String) (id : String) : Outcome :=
  if looseEqZero caller = false then
    ⟨⟨401, Body.msg "No permission!"⟩, store, [Call.findById]⟩
  else
    match findById store id with
    | none => ⟨⟨404, Body.success false⟩, store, [Call.findById]⟩
    | some _ =>
      ⟨⟨404, Body.success false⟩, if removeOk then removeOne store id else store,
        [Call.findById, Call.remove]⟩

end JobOffers

/-! ## Handlers of `routes/api/users.js` -/

namespace Users

/-- Handler of `POST /users/signup`.  `genSalt` is the outcome of `bcrypt.genSalt(10)`
(`none`: it reported an error), `hash` is `bcrypt.hash` (`none`: error) and
`newId` the id the store assigns on save (`none`: the save is rejected). -/
def signup (genSalt : Option String) (hash : JVal → String → Option String)
    (newId : Option String) (store : List Doc) (body : Doc) : Outcome :=
  let firstName := field body "firstName"
  let lastName := field body "lastName"
  let email := field body "email"
  let password := field body "password"
  if !firstName.truthy || !lastName.truthy || !email.truthy || !password.truthy then
    ⟨⟨400, Body.msg "Please enter all fields!"⟩, store, []⟩
  else
    match findOne store email with
    | some _ => ⟨⟨409, Body.msg "User with that email already exists!"⟩, store, [Call.findOne]⟩
    | none =>
      match genSalt with
      | none => ⟨⟨500, Body.error⟩, store, [Call.findOne]⟩
      | some salt =>
        match hash password salt with
        | none => ⟨⟨500, Body.error⟩, store, [Call.findOne]⟩
        | some h =>
          let newUser : Doc :=
            [("firstName", firstName), ("lastName", lastName), ("email", email),
             ("password", JVal.str h)]
          match saveDoc newId [] store newUser with
          | some (user, store') =>
            ⟨⟨200, Body.doc [("_id", field user "_id"), ("firstName", field user "firstName"),
                ("lastName", field user "lastName"), ("email", field user "email")]⟩,
              store', [Call.findOne, Call.save]⟩
          | none => ⟨⟨500, Body.error⟩, store, [Call.findOne, Call.save]⟩

/-- Handler of `POST /users/login`.  `compare` is `bcrypt.compare` (`none`:
its promise rejects) and `sign` is `jwt.sign` on the payload `{ id: user.id }`,
`user.id` being the document's `_id` (`none`: it reports an error).  Neither failure has a handler, so no response is sent then:
the result is `none`. -/
def login (compare : JVal → JVal → Option Bool) (sign : JVal → Option String)
    (store : List Doc) (body : Doc) : Option Response :=
  let email := field body "email"
  let password := field body "password"
  if !email.truthy || !password.truthy then
    some ⟨400, Body.msg "Please enter all fields!"⟩
  else
    match findOne store email with
    | none => some ⟨400, Body.msg "User with that email doesn't exists!"⟩
    | some user =>
      match compare password (field user "password") with
      | none => none
      | some false => some ⟨400, Body.msg "Invalid credentials"⟩
      | some true =>
        match sign (field user "_id") with
        | none => none
        | some token =>
          some ⟨200, Body.login token
            [("id", field user "_id"), ("firstName", field user "firstName"),
             ("lastName", field user "lastName"), ("email", field user "email")]⟩

/-- Handler of `DELETE /users/:id`, after `checkAuth` resolved the caller.  With a `null`
user the call `user.remove()` throws and the outer `.catch` answers 404.
`removeOk` tells whether `user.remove()` resolves. -/
def delete (removeOk : Bool) (store : List Doc) (caller : String) (id : String) : Outcome :=
  if caller ≠ id then ⟨⟨401, Body.msg "No permission!"⟩, store, []⟩
  else
    match findById store id with
    | none => ⟨⟨404, Body.msg "User not found"⟩, store, [Call.findById]⟩
    | some _ =>
      if removeOk then
        ⟨⟨200, Body.msg "User deleted successfully"⟩, removeOne store id,
          [Call.findById, Call.remove]⟩
      else ⟨⟨500, Body.error⟩, store, [Call.findById, Call.remove]⟩

end Users

/-! ## The patch as the specification words it -/

/-- The value of the last edit of the list whose `propName` is `f`, when there
is one. -/
def lastEdit (body : List Edit) (f : String) : Option JVal :=
  match body with
  | [] => none
  | e :: rest =>
    match lastEdit rest f with
    | some v => some v
    | none => if e.propName = f then some e.value else none

/-! ## Facts about the store -/

theorem field_append (ops d : Doc) (f : String) :
    field (ops ++ d) f = match ops.lookup f with
      | some v => v
      | none => field d f := by
  unfold field
  rw [List.lookup_append]
  cases ops.lookup f <;> simp

theorem findById_split (store : List Doc) (id : String) (o : Doc)
    (h : findById store id = some o) :
    ∃ pre post, store = pre ++ o :: post ∧ (∀ d ∈ pre, field d "_id" ≠ JVal.str id) ∧
      field o "_id" = JVal.str id := by
  induction store with
  | nil => simp [findById] at h
  | cons d rest ih =>
    by_cases hd : field d "_id" = JVal.str id
    · have : o = d := by
        simpa [findById, List.find?_cons, hd] using h.symm
      subst this
      exact ⟨[], rest, rfl, by simp, hd⟩
    · have h' : findById rest id = some o := by
        simpa [findById, List.find?_cons, hd] using h
      obtain ⟨pre, post, hs, hpre, ho⟩ := ih h'
      refine ⟨d :: pre, post, by simp [hs], ?_, ho⟩
      intro x hx
      rcases List.mem_cons.mp hx with rfl | hx
      · exact hd
      · exact hpre x hx

theorem updateOne_split (pre post : List Doc) (o ops : Doc) (id : String)
    (hpre : ∀ d ∈ pre, field d "_id" ≠ JVal.str id) (ho : field o "_id" = JVal.str id) :
    updateOne (pre ++ o :: post) id ops = pre ++ (ops ++ o) :: post := by
  induction pre with
  | nil => simp [updateOne, ho]
  | cons d rest ih =>
    have hd : field d "_id" ≠ JVal.str id := hpre d (by simp)
    have hrest : ∀ x ∈ rest, field x "_id" ≠ JVal.str id := fun x hx => hpre x (by simp [hx])
    simp [updateOne, hd, ih hrest]

theorem removeOne_split (pre post : List Doc) (o : Doc) (id : String)
    (hpre : ∀ d ∈ pre, field d "_id" ≠ JVal.str id) (ho : field o "_id" = JVal.str id) :
    removeOne (pre ++ o :: post) id = pre ++ post := by
  induction pre with
  | nil => simp [removeOne, ho]
  | cons d rest ih =>
    have hd : field d "_id" ≠ JVal.str id := hpre d (by simp)
    have hrest : ∀ x ∈ rest, field x "_id" ≠ JVal.str id := fun x hx => hpre x (by simp [hx])
    simp [removeOne, hd, ih hrest]

/-! ## Facts about `updateOps` -/

theorem assign_own_lookup (o : JsObject) (e : Edit) (f : String)
    (h : f ≠ "__proto__" ∨ e.propName ≠ f) :
    (o.assign e.propName e.value).own.lookup f =
      if e.propName = f then some e.value else o.own.lookup f := by
  unfold JsObject.assign
  by_cases hk : e.propName = "__proto__" ∧ o.inheritsObjectPrototype = true
  · have hne : e.propName ≠ f := by
      rcases h with h | h
      · intro heq
        exact h (heq ▸ hk.1)
      · exact h
    rw [if_pos hk, if_neg hne]
    cases e.value <;> rfl
  · rw [if_neg hk]
    by_cases hf : e.propName = f
    · subst hf
      simp
    · have : (f == e.propName) = false := by
        simpa using fun h' : f = e.propName => hf h'.symm
      simp [List.lookup_cons, this, hf]

theorem foldl_assign_own_lookup (body : List Edit) (o : JsObject) (f : String)
    (h : f ≠ "__proto__" ∨ ∀ e ∈ body, e.propName ≠ f) :
    (body.foldl (fun o ops => o.assign ops.propName ops.value) o).own.lookup f =
      match lastEdit body f with
      | some v => some v
      | none => o.own.lookup f := by
  induction body generalizing o with
  | nil => simp [lastEdit]
  | cons e rest ih =>
    have hrest : f ≠ "__proto__" ∨ ∀ x ∈ rest, x.propName ≠ f := by
      rcases h with h | h
      · exact Or.inl h
      · exact Or.inr fun x hx => h x (by simp [hx])
    have he : f ≠ "__proto__" ∨ e.propName ≠ f := by
      rcases h with h | h
      · exact Or.inl h
      · exact Or.inr (h e (by simp))
    rw [List.foldl_cons, ih _ hrest, assign_own_lookup o e f he]
    simp only [lastEdit]
    cases lastEdit rest f with
    | some v => rfl
    | none =>
      by_cases hf : e.propName = f <;> simp [hf]

theorem updateOps_own_lookup (body : List Edit) (f : String)
    (h : f ≠ "__proto__" ∨ ∀ e ∈ body, e.propName ≠ f) :
    (updateOps body).own.lookup f = lastEdit body f := by
  unfold updateOps
  rw [foldl_assign_own_lookup body JsObject.empty f h]
  cases lastEdit body f <;> simp [JsObject.empty]

theorem lastEdit_eq_none (body : List Edit) (f : String) (h : ∀ e ∈ body, e.propName ≠ f) :
    lastEdit body f = none := by
  induction body with
  | nil => rfl
  | cons e rest ih =>
    have h1 := ih fun x hx => h x (by simp [hx])
    have h2 : e.propName ≠ f := h e (by simp)
    simp [lastEdit, h1, h2]

/-- A patch that answers 200 found the offer, the caller is its author, and
the collection afterwards is the one before with that offer's properties
overwritten by the own properties of `updateOps`. -/
theorem patch_success_shape (updateOk : Bool) (store : List Doc) (caller id : String)
    (body : List Edit) (h : (JobOffers.patch updateOk store caller id body).resp.status = 200) :
    ∃ pre o post, store = pre ++ o :: post ∧ findById store id = some o ∧
      (∀ d ∈ pre, field d "_id" ≠ JVal.str id) ∧ field o "_id" = JVal.str id ∧
      field o "authorId" = JVal.str caller ∧
      (JobOffers.patch updateOk store caller id body).store =
        pre ++ ((updateOps body).own ++ o) :: post := by
  unfold JobOffers.patch at h ⊢
  cases hf : findById store id with
  | none => simp [hf] at h
  | some o =>
    obtain ⟨pre, post, hs, hpre, ho⟩ := findById_split store id o hf
    by_cases ha : JVal.str caller = field o "authorId"
    · cases updateOk with
      | false => simp [hf, ha] at h
      | true =>
        refine ⟨pre, o, post, hs, rfl, hpre, ho, ha.symm, ?_⟩
        simp only [ha, ne_eq, not_true_eq_false, if_false, if_true]
        rw [hs]
        exact updateOne_split pre post o _ id hpre ho
    · simp [hf, ha] at h

/-! ## PATCH /job_offers/:id -/

/-- C1: the patch handler answers 404 when no offer with the id is stored and
401 when the stored offer's `authorId` differs from the caller's identity,
leaving the stored offers unchanged in both cases; it answers 200 only when
the offer is stored and its `authorId` is the caller's identity (and it does
answer 200 then, when the store's update succeeds). -/
theorem patch_not_found_unauthorized_success (updateOk : Bool) (store : List Doc)
    (caller id : String) (body : List Edit) :
    (findById store id = none →
      (JobOffers.patch updateOk store caller id body).resp.status = 404 ∧
      (JobOffers.patch updateOk store caller id body).store = store) ∧
    (∀ o, findById store id = some o → field o "authorId" ≠ JVal.str caller →
      (JobOffers.patch updateOk store caller id body).resp.status = 401 ∧
      (JobOffers.patch updateOk store caller id body).store = store) ∧
    ((JobOffers.patch updateOk store caller id body).resp.status = 200 →
      ∃ o, findById store id = some o ∧ field o "authorId" = JVal.str caller) ∧
    (∀ o, findById store id = some o → field o "authorId" = JVal.str caller →
      updateOk = true → (JobOffers.patch updateOk store caller id body).resp.status = 200) := by
  refine ⟨?_, ?_, ?_, ?_⟩
  · intro h
    simp [JobOffers.patch, h]
  · intro o h hne
    have hne' : ¬ JVal.str caller = field o "authorId" := fun e => hne e.symm
    simp [JobOffers.patch, h, hne']
  · intro h
    obtain ⟨_, o, _, _, hf, _, _, ha, _⟩ := patch_success_shape updateOk store caller id body h
    exact ⟨o, hf, ha⟩
  · intro o h ha hok
    simp [JobOffers.patch, h, ha, hok]

/-- Witness for C1 on a store holding the offer `o1` of author `u1`: an unknown
id is answered 404, the caller `u2` is answered 401, both with the store
unchanged, and the author is answered 200. -/
theorem patch_not_found_unauthorized_success_witness :
    ((JobOffers.patch true [[("_id", JVal.str "o1"), ("authorId", JVal.str "u1")]] "u1" "o9"
        [⟨"description", JVal.str "new"⟩]).resp.status = 404 ∧
      (JobOffers.patch true [[("_id", JVal.str "o1"), ("authorId", JVal.str "u1")]] "u1" "o9"
        [⟨"description", JVal.str "new"⟩]).store =
        [[("_id", JVal.str "o1"), ("authorId", JVal.str "u1")]]) ∧
    ((JobOffers.patch true [[("_id", JVal.str "o1"), ("authorId", JVal.str "u1")]] "u2" "o1"
        [⟨"description", JVal.str "new"⟩]).resp.status = 401 ∧
      (JobOffers.patch true [[("_id", JVal.str "o1"), ("authorId", JVal.str "u1")]] "u2" "o1"
        [⟨"description", JVal.str "new"⟩]).store =
        [[("_id", JVal.str "o1"), ("authorId", JVal.str "u1")]]) ∧
    (JobOffers.patch true [[("_id", JVal.str "o1"), ("authorId", JVal.str "u1")]] "u1" "o1"
        [⟨"description", JVal.str "new"⟩]).resp.status = 200 :=
  ⟨(patch_not_found_unauthorized_success true
      [[("_id", JVal.str "o1"), ("authorId", JVal.str "u1")]] "u1" "o9"
      [⟨"description", JVal.str "new"⟩]).1 (by decide),
   (patch_not_found_unauthorized_success true
      [[("_id", JVal.str "o1"), ("authorId", JVal.str "u1")]] "u2" "o1"
      [⟨"description", JVal.str "new"⟩]).2.1
      [("_id", JVal.str "o1"), ("authorId", JVal.str "u1")] (by decide) (by decide),
   (patch_not_found_unauthorized_success true
      [[("_id", JVal.str "o1"), ("authorId", JVal.str "u1")]] "u1" "o1"
      [⟨"description", JVal.str "new"⟩]).2.2.2
      [("_id", JVal.str "o1"), ("authorId", JVal.str "u1")] (by decide) (by decide) rfl⟩

/-- C2, counterexample: the author `u1` of the stored offer `o1` patches it
with the single edit `authorId := u2`; the handler answers 200 and the stored
offer's `authorId` is `u2` afterwards, not `u1`. -/
theorem patch_authorId_edit_changes_author :
    field [("_id", JVal.str "o1"), ("authorId", JVal.str "u1")] "authorId" = JVal.str "u1" ∧
    (JobOffers.patch true [[("_id", JVal.str "o1"), ("authorId", JVal.str "u1")]] "u1" "o1"
      [⟨"authorId", JVal.str "u2"⟩]).resp.status = 200 ∧
    (findById (JobOffers.patch true [[("_id", JVal.str "o1"), ("authorId", JVal.str "u1")]]
      "u1" "o1" [⟨"authorId", JVal.str "u2"⟩]).store "o1").map (fun o => field o "authorId") =
      some (JVal.str "u2") ∧
    JVal.str "u2" ≠ JVal.str "u1" := by
  decide

/-- C2, amended: after a patch that answers 200 the patched offer's `authorId`
is the value of the last edit whose propName is `authorId` when the list has
one, and is its `authorId` before the patch (the caller's identity) when the
list has none; every other stored offer is as before. -/
theorem patch_authorId_after (updateOk : Bool) (store : List Doc) (caller id : String)
    (body : List Edit)
    (h : (JobOffers.patch updateOk store caller id body).resp.status = 200) :
    ∃ pre o o' post, store = pre ++ o :: post ∧ findById store id = some o ∧
      (JobOffers.patch updateOk store caller id body).store = pre ++ o' :: post ∧
      field o "authorId" = JVal.str caller ∧
      ((∀ e ∈ body, e.propName ≠ "authorId") → field o' "authorId" = field o "authorId") ∧
      (∀ v, lastEdit body "authorId" = some v → field o' "authorId" = v) := by
  obtain ⟨pre, o, post, hs, hf, _, _, ha, hst⟩ :=
    patch_success_shape updateOk store caller id body h
  refine ⟨pre, o, (updateOps body).own ++ o, post, hs, hf, hst, ha, ?_, ?_⟩
  · intro hno
    rw [field_append, updateOps_own_lookup body "authorId" (Or.inl (by decide)),
      lastEdit_eq_none body "authorId" hno]
  · intro v hv
    rw [field_append, updateOps_own_lookup body "authorId" (Or.inl (by decide)), hv]

/-- Witness for the amended C2: the author `u1` patches the description of the
stored offer `o1`. -/
theorem patch_authorId_after_witness :
    ∃ pre o o' post,
      [[("_id", JVal.str "o1"), ("authorId", JVal.str "u1")]] = pre ++ o :: post ∧
      findById [[("_id", JVal.str "o1"), ("authorId", JVal.str "u1")]] "o1" = some o ∧
      (JobOffers.patch true [[("_id", JVal.str "o1"), ("authorId", JVal.str "u1")]] "u1" "o1"
        [⟨"description", JVal.str "new"⟩]).store = pre ++ o' :: post ∧
      field o "authorId" = JVal.str "u1" ∧
      ((∀ e ∈ [(⟨"description", JVal.str "new"⟩ : Edit)], e.propName ≠ "authorId") →
        field o' "authorId" = field o "authorId") ∧
      (∀ v, lastEdit [⟨"description", JVal.str "new"⟩] "authorId" = some v →
        field o' "authorId" = v) :=
  patch_authorId_after true [[("_id", JVal.str "o1"), ("authorId", JVal.str "u1")]] "u1" "o1"
    [⟨"description", JVal.str "new"⟩] (by decide)

/-- C7, counterexample: the author `u1` patches the stored offer `o1` with the
single edit `__proto__ := x`.  The handler answers 200, the last edit named
`__proto__` has the value `x`, and the stored offer's `__proto__` property is
still absent: the assignment `updateOps["__proto__"] = "x"` defines no own
property, so the update sets nothing. -/
theorem patch_proto_edit_sets_nothing :
    (JobOffers.patch true [[("_id", JVal.str "o1"), ("authorId", JVal.str "u1")]] "u1" "o1"
      [⟨"__proto__", JVal.str "x"⟩]).resp.status = 200 ∧
    lastEdit [⟨"__proto__", JVal.str "x"⟩] "__proto__" = some (JVal.str "x") ∧
    (findById (JobOffers.patch true [[("_id", JVal.str "o1"), ("authorId", JVal.str "u1")]]
      "u1" "o1" [⟨"__proto__", JVal.str "x"⟩]).store "o1").map (fun o => field o "__proto__") =
      some JVal.undefined := by
  decide

/-- C7, amended: after a patch that answers 200 the collection is the one
before with the patched offer replaced, every other offer untouched, and for
every field name `f` other than `__proto__` (and for `__proto__` as well when
no edit names it) the patched offer's `f` is the value of the last edit whose
propName is `f` when there is one and its value before the patch otherwise.
In particular a patch whose only edit names `description` sets the
description and changes no other field. -/
theorem patch_overwrites_edited_fields (updateOk : Bool) (store : List Doc)
    (caller id : String) (body : List Edit)
    (h : (JobOffers.patch updateOk store caller id body).resp.status = 200) :
    ∃ pre o o' post, store = pre ++ o :: post ∧ findById store id = some o ∧
      (∀ d ∈ pre, field d "_id" ≠ JVal.str id) ∧
      (JobOffers.patch updateOk store caller id body).store = pre ++ o' :: post ∧
      (∀ f, (f ≠ "__proto__" ∨ ∀ e ∈ body, e.propName ≠ "__proto__") →
        field o' f = match lastEdit body f with
          | some v => v
          | none => field o f) ∧
      (∀ v, body = [⟨"description", v⟩] →
        field o' "description" = v ∧ ∀ f, f ≠ "description" → field o' f = field o f) := by
  obtain ⟨pre, o, post, hs, hf, hpre, _, _, hst⟩ :=
    patch_success_shape updateOk store caller id body h
  have key : ∀ f, (f ≠ "__proto__" ∨ ∀ e ∈ body, e.propName ≠ "__proto__") →
      field ((updateOps body).own ++ o) f = match lastEdit body f with
        | some v => v
        | none => field o f := by
    intro f hfp
    have hfp' : f ≠ "__proto__" ∨ ∀ e ∈ body, e.propName ≠ f := by
      by_cases hp : f = "__proto__"
      · rcases hfp with hfp | hfp
        · exact absurd hp hfp
        · exact Or.inr (hp ▸ hfp)
      · exact Or.inl hp
    rw [field_append, updateOps_own_lookup body f hfp']
  refine ⟨pre, o, (updateOps body).own ++ o, post, hs, hf, hpre, hst, key, ?_⟩
  intro v hb
  subst hb
  have hno : ∀ e ∈ [(⟨"description", v⟩ : Edit)], e.propName ≠ "__proto__" := by
    intro e he
    rw [List.mem_singleton.mp he]
    show "description" ≠ "__proto__"
    decide
  refine ⟨?_, ?_⟩
  · rw [key "description" (Or.inr hno)]
    simp [lastEdit]
  · intro f hne
    rw [key f (Or.inr hno)]
    have : ¬ "description" = f := fun e => hne e.symm
    simp [lastEdit, this]

/-- Witness for the amended C7: the author `u1` patches the description of the
stored offer `o1`. -/
theorem patch_overwrites_edited_fields_witness :
    ∃ pre o o' post,
      [[("_id", JVal.str "o1"), ("authorId", JVal.str "u1")]] = pre ++ o :: post ∧
      findById [[("_id", JVal.str "o1"), ("authorId", JVal.str "u1")]] "o1" = some o ∧
      (∀ d ∈ pre, field d "_id" ≠ JVal.str "o1") ∧
      (JobOffers.patch true [[("_id", JVal.str "o1"), ("authorId", JVal.str "u1")]] "u1" "o1"
        [⟨"description", JVal.str "new"⟩]).store = pre ++ o' :: post ∧
      (∀ f, (f ≠ "__proto__" ∨
          ∀ e ∈ [(⟨"description", JVal.str "new"⟩ : Edit)], e.propName ≠ "__proto__") →
        field o' f = match lastEdit [⟨"description", JVal.str "new"⟩] f with
          | some v => v
          | none => field o f) ∧
      (∀ v, [(⟨"description", JVal.str "new"⟩ : Edit)] = [⟨"description", v⟩] →
        field o' "description" = v ∧ ∀ f, f ≠ "description" → field o' f = field o f) :=
  patch_overwrites_edited_fields true [[("_id", JVal.str "o1"), ("authorId", JVal.str "u1")]]
    "u1" "o1" [⟨"description", JVal.str "new"⟩] (by decide)

/-! ## DELETE /job_offers/:id -/

/-- C3, the code at the failing input: the author `u1` asks to delete their
own stored offer `o1`; the handler answers 401 and the offer stays stored.
The test made is `req.user.id != 0`, not a comparison with the offer's
`authorId`: a caller whose identity is the text `0`, who is not the author,
passes it, the remove of the offer is issued, and the answer is 404 with
body `{ success: false }`. -/
theorem delete_refuses_the_author :
    field [("_id", JVal.str "o1"), ("authorId", JVal.str "u1")] "authorId" = JVal.str "u1" ∧
    JobOffers.delete true [[("_id", JVal.str "o1"), ("authorId", JVal.str "u1")]] "u1" "o1" =
      ⟨⟨401, Body.msg "No permission!"⟩,
        [[("_id", JVal.str "o1"), ("authorId", JVal.str "u1")]], [Call.findById]⟩ ∧
    JobOffers.delete true [[("_id", JVal.str "o1"), ("authorId", JVal.str "u1")]] "0" "o1" =
      ⟨⟨404, Body.success false⟩, [], [Call.findById, Call.remove]⟩ := by
  decide

/-! ## POST /job_offers, then GET /job_offers/:id -/

/-- C8: when `POST /job_offers` by caller `c` answers 200 with the offer
`saved`, that offer carries an id, `GET /job_offers/:id` on that id in the
resulting store answers 200 with the same offer, its `authorId` is `c`, and
its title, position, firm, dimensions, description, city, street, number and
tags are the submitted values. -/
theorem create_then_getById (newId : Option String) (now : JVal) (store : List Doc)
    (c : String) (body saved : Doc)
    (h : (JobOffers.post newId now store c body).resp = ⟨200, Body.jobOffer saved⟩) :
    ∃ id, field saved "_id" = JVal.str id ∧
      JobOffers.getById (JobOffers.post newId now store c body).store id =
        ⟨200, Body.doc saved⟩ ∧
      field saved "authorId" = JVal.str c ∧
      field saved "title" = field body "title" ∧
      field saved "position" = field body "position" ∧
      field saved "firm" = field body "firm" ∧
      field saved "dimensions" = field body "dimensions" ∧
      field saved "description" = field body "description" ∧
      field saved "city" = field body "city" ∧
      field saved "street" = field body "street" ∧
      field saved "number" = field body "number" ∧
      field saved "tags" = field body "tags" := by
  unfold JobOffers.post saveDoc at h ⊢
  cases newId with
  | none => simp at h
  | some id =>
    by_cases hu : (findById store id).isSome = true
    · simp [hu] at h
    · have hnone : findById store id = none := by
        cases hx : findById store id with
        | none => rfl
        | some x => simp [hx] at hu
      simp only [hu, if_false, Bool.false_eq_true] at h ⊢
      have hs : saved = ("_id", JVal.str id) :: ([("date", now)] ++ JobOffers.newJobOffer c body) := by
        have := congrArg Response.body h
        simpa using this.symm
      subst hs
      refine ⟨id, rfl, ?_, rfl, rfl, rfl, rfl, rfl, rfl, rfl, rfl, rfl, rfl⟩
      unfold JobOffers.getById
      have hfind : findById (store ++ [("_id", JVal.str id) ::
          ([("date", now)] ++ JobOffers.newJobOffer c body)]) id =
          some (("_id", JVal.str id) :: ([("date", now)] ++ JobOffers.newJobOffer c body)) := by
        unfold findById at hnone ⊢
        rw [List.find?_append, hnone]
        simp [field]
      rw [hfind]

/-- Witness for C8: caller `u1` creates an offer in an empty store, the store
assigning the id `o1`. -/
theorem create_then_getById_witness :
    ∃ id, field (("_id", JVal.str "o1") :: ("date", JVal.str "2020-01-01") ::
        JobOffers.newJobOffer "u1" [("title", JVal.str "Offer"), ("tags", JVal.strs ["job"])])
        "_id" = JVal.str id ∧
      JobOffers.getById (JobOffers.post (some "o1") (JVal.str "2020-01-01") [] "u1"
        [("title", JVal.str "Offer"), ("tags", JVal.strs ["job"])]).store id =
        ⟨200, Body.doc (("_id", JVal.str "o1") :: ("date", JVal.str "2020-01-01") ::
          JobOffers.newJobOffer "u1" [("title", JVal.str "Offer"), ("tags", JVal.strs ["job"])])⟩ :=
  let ⟨id, h1, h2, _⟩ := create_then_getById (some "o1") (JVal.str "2020-01-01") [] "u1"
    [("title", JVal.str "Offer"), ("tags", JVal.strs ["job"])]
    (("_id", JVal.str "o1") :: ("date", JVal.str "2020-01-01") ::
      JobOffers.newJobOffer "u1" [("title", JVal.str "Offer"), ("tags", JVal.strs ["job"])])
    (by decide)
  ⟨id, h1, h2⟩

/-! ## POST /users/login -/

/-- C4, counterexample: against a store holding the user `a@x.com`, a login
with the unknown email `b@x.com` and a login with the email `a@x.com` and a
password that does not match the stored hash are answered with different
bodies. -/
theorem login_bodies_differ :
    findOne [[("_id", JVal.str "u1"), ("email", JVal.str "a@x.com"),
      ("password", JVal.str "hash")]] (JVal.str "b@x.com") = none ∧
    findOne [[("_id", JVal.str "u1"), ("email", JVal.str "a@x.com"),
      ("password", JVal.str "hash")]] (JVal.str "a@x.com") =
      some [("_id", JVal.str "u1"), ("email", JVal.str "a@x.com"),
        ("password", JVal.str "hash")] ∧
    Users.login (fun _ _ => some false) (fun _ => some "token")
      [[("_id", JVal.str "u1"), ("email", JVal.str "a@x.com"), ("password", JVal.str "hash")]]
      [("email", JVal.str "b@x.com"), ("password", JVal.str "pw")] =
      some ⟨400, Body.msg "User with that email doesn't exists!"⟩ ∧
    Users.login (fun _ _ => some false) (fun _ => some "token")
      [[("_id", JVal.str "u1"), ("email", JVal.str "a@x.com"), ("password", JVal.str "hash")]]
      [("email", JVal.str "a@x.com"), ("password", JVal.str "pw")] =
      some ⟨400, Body.msg "Invalid credentials"⟩ ∧
    Users.login (fun _ _ => some false) (fun _ => some "token")
      [[("_id", JVal.str "u1"), ("email", JVal.str "a@x.com"), ("password", JVal.str "hash")]]
      [("email", JVal.str "b@x.com"), ("password", JVal.str "pw")] ≠
    Users.login (fun _ _ => some false) (fun _ => some "token")
      [[("_id", JVal.str "u1"), ("email", JVal.str "a@x.com"), ("password", JVal.str "hash")]]
      [("email", JVal.str "a@x.com"), ("password", JVal.str "pw")] := by
  decide

/-- C4, amended: a login whose email matches no stored user and a login whose
email matches a stored user but whose password does not match the stored
hash, both with non-empty email and password, are both answered with status
400; the body is `{ msg: "User with that email doesn't exists!" }` in the
first case and `{ msg: "Invalid credentials" }` in the second. -/
theorem login_rejections (compare : JVal → JVal → Option Bool) (sign : JVal → Option String)
    (store : List Doc) (body₁ body₂ user : Doc)
    (he₁ : (field body₁ "email").truthy = true) (hp₁ : (field body₁ "password").truthy = true)
    (he₂ : (field body₂ "email").truthy = true) (hp₂ : (field body₂ "password").truthy = true)
    (hunknown : findOne store (field body₁ "email") = none)
    (hknown : findOne store (field body₂ "email") = some user)
    (hwrong : compare (field body₂ "password") (field user "password") = some false) :
    Users.login compare sign store body₁ =
      some ⟨400, Body.msg "User with that email doesn't exists!"⟩ ∧
    Users.login compare sign store body₂ = some ⟨400, Body.msg "Invalid credentials"⟩ := by
  constructor
  · simp [Users.login, he₁, hp₁, hunknown]
  · simp [Users.login, he₂, hp₂, hknown, hwrong]

/-- Witness for the amended C4 on a store holding the user `a@x.com`. -/
theorem login_rejections_witness :
    Users.login (fun _ _ => some false) (fun _ => some "token")
      [[("_id", JVal.str "u1"), ("email", JVal.str "a@x.com"), ("password", JVal.str "hash")]]
      [("email", JVal.str "b@x.com"), ("password", JVal.str "pw")] =
      some ⟨400, Body.msg "User with that email doesn't exists!"⟩ ∧
    Users.login (fun _ _ => some false) (fun _ => some "token")
      [[("_id", JVal.str "u1"), ("email", JVal.str "a@x.com"), ("password", JVal.str "hash")]]
      [("email", JVal.str "a@x.com"), ("password", JVal.str "pw")] =
      some ⟨400, Body.msg "Invalid credentials"⟩ :=
  login_rejections (fun _ _ => some false) (fun _ => some "token")
    [[("_id", JVal.str "u1"), ("email", JVal.str "a@x.com"), ("password", JVal.str "hash")]]
    [("email", JVal.str "b@x.com"), ("password", JVal.str "pw")]
    [("email", JVal.str "a@x.com"), ("password", JVal.str "pw")]
    [("_id", JVal.str "u1"), ("email", JVal.str "a@x.com"), ("password", JVal.str "hash")]
    (by decide) (by decide) (by decide) (by decide) (by decide) (by decide) rfl

/-! ## POST /users/signup -/

/-- C5, counterexample: the store holds a user with email `a@x.com`; a signup
with that email, first name `John`, last name `Doe` and the empty password is
answered 400, not 409. -/
theorem signup_duplicate_email_empty_password :
    (∃ u ∈ [[("_id", JVal.str "u1"), ("email", JVal.str "a@x.com")]],
      field u "email" = JVal.str "a@x.com") ∧
    (Users.signup (some "salt") (fun _ _ => some "hash") (some "u2")
      [[("_id", JVal.str "u1"), ("email", JVal.str "a@x.com")]]
      [("firstName", JVal.str "John"), ("lastName", JVal.str "Doe"),
       ("email", JVal.str "a@x.com"), ("password", JVal.str "")]).resp.status = 400 := by
  decide

/-- C5, amended: when the store holds a user with email `e`, every signup with
email `e` whose firstName, lastName, email and password are all non-empty is
answered 409, whatever the (non-empty) password is and whatever the salting,
hashing and save steps would do, and the user store is unchanged; no save is
issued. -/
theorem signup_duplicate_email_conflict (genSalt : Option String)
    (hash : JVal → String → Option String) (newId : Option String) (store : List Doc)
    (body u : Doc) (hu : u ∈ store) (hemail : field u "email" = field body "email")
    (hfn : (field body "firstName").truthy = true) (hln : (field body "lastName").truthy = true)
    (he : (field body "email").truthy = true) (hpw : (field body "password").truthy = true) :
    Users.signup genSalt hash newId store body =
      ⟨⟨409, Body.msg "User with that email already exists!"⟩, store, [Call.findOne]⟩ := by
  have hsome : ∃ x, findOne store (field body "email") = some x := by
    cases hx : findOne store (field body "email") with
    | some x => exact ⟨x, rfl⟩
    | none =>
      unfold findOne at hx
      rw [List.find?_eq_none] at hx
      exact absurd (by simpa using hemail) (hx u hu)
  obtain ⟨x, hx⟩ := hsome
  simp [Users.signup, hfn, hln, he, hpw, hx]

/-- Witness for the amended C5: a second signup with the stored email
`a@x.com` and another password. -/
theorem signup_duplicate_email_conflict_witness :
    Users.signup (some "salt") (fun _ _ => some "hash") (some "u2")
      [[("_id", JVal.str "u1"), ("email", JVal.str "a@x.com")]]
      [("firstName", JVal.str "John"), ("lastName", JVal.str "Doe"),
       ("email", JVal.str "a@x.com"), ("password", JVal.str "other")] =
      ⟨⟨409, Body.msg "User with that email already exists!"⟩,
        [[("_id", JVal.str "u1"), ("email", JVal.str "a@x.com")]], [Call.findOne]⟩ :=
  signup_duplicate_email_conflict (some "salt") (fun _ _ => some "hash") (some "u2")
    [[("_id", JVal.str "u1"), ("email", JVal.str "a@x.com")]]
    [("firstName", JVal.str "John"), ("lastName", JVal.str "Doe"),
     ("email", JVal.str "a@x.com"), ("password", JVal.str "other")]
    [("_id", JVal.str "u1"), ("email", JVal.str "a@x.com")]
    (by decide) (by decide) (by decide) (by decide) (by decide) (by decide)

/-- C9: a signup whose firstName, lastName, email and password are all
non-empty, whose email matches no stored user, and whose salting, hashing and
save steps succeed (salt `salt`, hash `h`, fresh id `id`) is answered 200; the
user added to the store has `h` as its `password`; and the body is the object
with exactly the fields `_id`, `firstName`, `lastName`, `email`, none of which
is named `password`. -/
theorem signup_success (genSalt : Option String) (hash : JVal → String → Option String)
    (newId : Option String) (store : List Doc) (body : Doc) (salt h id : String)
    (hfn : (field body "firstName").truthy = true) (hln : (field body "lastName").truthy = true)
    (he : (field body "email").truthy = true) (hpw : (field body "password").truthy = true)
    (hfresh : findOne store (field body "email") = none)
    (hsalt : genSalt = some salt) (hhash : hash (field body "password") salt = some h)
    (hid : newId = some id) (hunused : findById store id = none) :
    ∃ user resp,
      Users.signup genSalt hash newId store body =
        ⟨⟨200, Body.doc resp⟩, store ++ [user], [Call.findOne, Call.save]⟩ ∧
      field user "password" = JVal.str h ∧
      field user "email" = field body "email" ∧
      resp = [("_id", JVal.str id), ("firstName", field body "firstName"),
        ("lastName", field body "lastName"), ("email", field body "email")] ∧
      fieldNames resp = ["_id", "firstName", "lastName", "email"] ∧
      "password" ∉ fieldNames resp := by
  refine ⟨[("_id", JVal.str id), ("firstName", field body "firstName"),
      ("lastName", field body "lastName"), ("email", field body "email"),
      ("password", JVal.str h)],
    [("_id", JVal.str id), ("firstName", field body "firstName"),
      ("lastName", field body "lastName"), ("email", field body "email")],
    ?_, rfl, rfl, rfl, rfl, ?_⟩
  · subst hsalt hid
    simp only [Users.signup, hfn, hln, he, hpw, hfresh, hhash, saveDoc, hunused]
    rfl
  · show "password" ∉ ["_id", "firstName", "lastName", "email"]
    decide

/-- Witness for C9: the signup `John Doe, john@x.com, pw123` in an empty
store. -/
theorem signup_success_witness :
    ∃ user resp,
      Users.signup (some "salt") (fun _ _ => some "hash") (some "u1") []
        [("firstName", JVal.str "John"), ("lastName", JVal.str "Doe"),
         ("email", JVal.str "john@x.com"), ("password", JVal.str "pw123")] =
        ⟨⟨200, Body.doc resp⟩, [] ++ [user], [Call.findOne, Call.save]⟩ ∧
      field user "password" = JVal.str "hash" ∧
      field user "email" = field [("firstName", JVal.str "John"), ("lastName", JVal.str "Doe"),
         ("email", JVal.str "john@x.com"), ("password", JVal.str "pw123")] "email" ∧
      resp = [("_id", JVal.str "u1"),
        ("firstName", field [("firstName", JVal.str "John"), ("lastName", JVal.str "Doe"),
         ("email", JVal.str "john@x.com"), ("password", JVal.str "pw123")] "firstName"),
        ("lastName", field [("firstName", JVal.str "John"), ("lastName", JVal.str "Doe"),
         ("email", JVal.str "john@x.com"), ("password", JVal.str "pw123")] "lastName"),
        ("email", field [("firstName", JVal.str "John"), ("lastName", JVal.str "Doe"),
         ("email", JVal.str "john@x.com"), ("password", JVal.str "pw123")] "email")] ∧
      fieldNames resp = ["_id", "firstName", "lastName", "email"] ∧
      "password" ∉ fieldNames resp :=
  signup_success (some "salt") (fun _ _ => some "hash") (some "u1") []
    [("firstName", JVal.str "John"), ("lastName", JVal.str "Doe"),
     ("email", JVal.str "john@x.com"), ("password", JVal.str "pw123")] "salt" "hash" "u1"
    (by decide) (by decide) (by decide) (by decide) (by decide) rfl rfl rfl (by decide)

/-- C10: a signup in which one of firstName, lastName, email, password is
absent or the empty string is answered 400 with the user store unchanged and
no store call issued (neither a lookup nor a save), whatever the store holds
and whatever the external steps would do; a signup in which all four are
non-empty strings is not answered 400. -/
theorem signup_validation (genSalt : Option String) (hash : JVal → String → Option String)
    (newId : Option String) (store : List Doc) (body : Doc) :
    ((∃ f ∈ ["firstName", "lastName", "email", "password"],
        field body f = JVal.undefined ∨ field body f = JVal.str "") →
      Users.signup genSalt hash newId store body =
        ⟨⟨400, Body.msg "Please enter all fields!"⟩, store, []⟩) ∧
    ((∀ f ∈ ["firstName", "lastName", "email", "password"],
        ∃ s, s ≠ "" ∧ field body f = JVal.str s) →
      (Users.signup genSalt hash newId store body).resp.status ≠ 400) := by
  constructor
  · rintro ⟨f, hf, hv⟩
    have hfalse : (field body f).truthy = false := by
      rcases hv with hv | hv <;> rw [hv] <;> rfl
    simp only [List.mem_cons, List.mem_singleton, List.not_mem_nil, or_false] at hf
    rcases hf with rfl | rfl | rfl | rfl <;> simp [Users.signup, hfalse]
  · intro hall
    have ht : ∀ f ∈ ["firstName", "lastName", "email", "password"],
        (field body f).truthy = true := by
      intro f hf
      obtain ⟨s, hs, hv⟩ := hall f hf
      rw [hv]
      simp [JVal.truthy, hs]
    have h1 := ht "firstName" (by simp)
    have h2 := ht "lastName" (by simp)
    have h3 := ht "email" (by simp)
    have h4 := ht "password" (by simp)
    simp only [Users.signup, h1, h2, h3, h4]
    repeat' split
    all_goals simp_all

/-- Witness for C10: a signup without password against a store that holds the
same email is answered 400 with no store call, and the complete signup
`John Doe, john@x.com, pw123` is not answered 400. -/
theorem signup_validation_witness :
    Users.signup (some "salt") (fun _ _ => some "hash") (some "u2")
      [[("_id", JVal.str "u1"), ("email", JVal.str "john@x.com")]]
      [("firstName", JVal.str "John"), ("lastName", JVal.str "Doe"),
       ("email", JVal.str "john@x.com")] =
      ⟨⟨400, Body.msg "Please enter all fields!"⟩,
        [[("_id", JVal.str "u1"), ("email", JVal.str "john@x.com")]], []⟩ ∧
    (Users.signup (some "salt") (fun _ _ => some "hash") (some "u1") []
      [("firstName", JVal.str "John"), ("lastName", JVal.str "Doe"),
       ("email", JVal.str "john@x.com"), ("password", JVal.str "pw123")]).resp.status ≠ 400 :=
  ⟨(signup_validation (some "salt") (fun _ _ => some "hash") (some "u2")
      [[("_id", JVal.str "u1"), ("email", JVal.str "john@x.com")]]
      [("firstName", JVal.str "John"), ("lastName", JVal.str "Doe"),
       ("email", JVal.str "john@x.com")]).1
      ⟨"password", by decide, Or.inl (by decide)⟩,
   (signup_validation (some "salt") (fun _ _ => some "hash") (some "u1") []
      [("firstName", JVal.str "John"), ("lastName", JVal.str "Doe"),
       ("email", JVal.str "john@x.com"), ("password", JVal.str "pw123")]).2
      (by
        intro f hf
        simp only [List.mem_cons, List.mem_singleton, List.not_mem_nil, or_false] at hf
        rcases hf with rfl | rfl | rfl | rfl
        · exact ⟨"John", by decide, rfl⟩
        · exact ⟨"Doe", by decide, rfl⟩
        · exact ⟨"john@x.com", by decide, rfl⟩
        · exact ⟨"pw123", by decide, rfl⟩)⟩

/-! ## DELETE /users/:id -/

/-- C6, counterexample: the caller `u1` asks to delete the stored user `u1`
and the store's remove fails; the handler answers 500, not Success, and the
user record is still stored. -/
theorem delete_user_remove_failure :
    findById [[("_id", JVal.str "u1"), ("email", JVal.str "a@x.com")]] "u1" =
      some [("_id", JVal.str "u1"), ("email", JVal.str "a@x.com")] ∧
    Users.delete false [[("_id", JVal.str "u1"), ("email", JVal.str "a@x.com")]] "u1" "u1" =
      ⟨⟨500, Body.error⟩, [[("_id", JVal.str "u1"), ("email", JVal.str "a@x.com")]],
        [Call.findById, Call.remove]⟩ := by
  decide

/-- C6, amended: the account delete handler answers 401, with the user store
unchanged and no store call, when the caller's identity differs from the
target id; when they are equal it answers 404 if no user with that id is
stored; and when such a user is stored and the store's remove succeeds it
answers 200 and the store afterwards is the store before without exactly
that record (when the remove fails it answers 500 and the store is
unchanged). -/
theorem delete_user_outcomes (removeOk : Bool) (store : List Doc) (caller id : String) :
    (caller ≠ id →
      Users.delete removeOk store caller id = ⟨⟨401, Body.msg "No permission!"⟩, store, []⟩) ∧
    (caller = id → findById store id = none →
      (Users.delete removeOk store caller id).resp.status = 404 ∧
      (Users.delete removeOk store caller id).store = store) ∧
    (∀ u, caller = id → findById store id = some u → removeOk = true →
      (Users.delete removeOk store caller id).resp =
        ⟨200, Body.msg "User deleted successfully"⟩ ∧
      ∃ pre post, store = pre ++ u :: post ∧
        (∀ d ∈ pre, field d "_id" ≠ JVal.str id) ∧
        (Users.delete removeOk store caller id).store = pre ++ post) ∧
    (∀ u, caller = id → findById store id = some u → removeOk = false →
      (Users.delete removeOk store caller id).resp.status = 500 ∧
      (Users.delete removeOk store caller id).store = store) := by
  refine ⟨?_, ?_, ?_, ?_⟩
  · intro hne
    simp [Users.delete, hne]
  · intro heq hnone
    simp [Users.delete, heq, hnone]
  · intro u heq hsome hok
    obtain ⟨pre, post, hs, hpre, hu⟩ := findById_split store id u hsome
    refine ⟨by simp [Users.delete, heq, hsome, hok], pre, post, hs, hpre, ?_⟩
    have : (Users.delete removeOk store caller id).store = removeOne store id := by
      simp [Users.delete, heq, hsome, hok]
    rw [this, hs]
    exact removeOne_split pre post u id hpre hu
  · intro u heq hsome hok
    simp [Users.delete, heq, hsome, hok]

/-- Witness for the amended C6 on a store holding the users `u1` and `u2`:
`u2` may not delete `u1`, the unknown caller `u9` is answered 404 on its own
id, and `u1` deletes its own record. -/
theorem delete_user_outcomes_witness :
    Users.delete true [[("_id", JVal.str "u1")], [("_id", JVal.str "u2")]] "u2" "u1" =
      ⟨⟨401, Body.msg "No permission!"⟩,
        [[("_id", JVal.str "u1")], [("_id", JVal.str "u2")]], []⟩ ∧
    (Users.delete true [[("_id", JVal.str "u1")], [("_id", JVal.str "u2")]] "u9" "u9").resp.status
      = 404 ∧
    (Users.delete true [[("_id", JVal.str "u1")], [("_id", JVal.str "u2")]] "u1" "u1").resp =
      ⟨200, Body.msg "User deleted successfully"⟩ ∧
    (Users.delete false [[("_id", JVal.str "u1")], [("_id", JVal.str "u2")]] "u1" "u1").resp.status
      = 500 :=
  ⟨(delete_user_outcomes true [[("_id", JVal.str "u1")], [("_id", JVal.str "u2")]] "u2" "u1").1
      (by decide),
   ((delete_user_outcomes true [[("_id", JVal.str "u1")], [("_id", JVal.str "u2")]] "u9"
      "u9").2.1 rfl (by decide)).1,
   ((delete_user_outcomes true [[("_id", JVal.str "u1")], [("_id", JVal.str "u2")]] "u1"
      "u1").2.2.1 [("_id", JVal.str "u1")] rfl (by decide) rfl).1,
   ((delete_user_outcomes false [[("_id", JVal.str "u1")], [("_id", JVal.str "u2")]] "u1"
      "u1").2.2.2 [("_id", JVal.str "u1")] rfl (by decide) rfl).1⟩

end JobsCentral
